import Mathlib

/-!
Verification of the ctrade decision pipeline (src/Vorschlag).

The Python modules `risk_manager.py`, `news_aggregator.py`,
`market_analyzer.py` and `bot.py` are shallowly embedded below.
Python floats are modelled by exact rationals (ℚ), Python ints by ℤ,
`datetime` values by an integer timestamp (seconds), and `Optional`
by `Option`.  Fallible steps return `Except String`, where the
`error` case carries the message of the raised Python exception.
-/

/-! ## Python numeric helpers -/

/-- Python `int(x)`: truncation toward zero. -/
def pyInt (q : ℚ) : ℤ := if 0 ≤ q then ⌊q⌋ else ⌈q⌉

/-- Round to the nearest integer, ties to even (Python `round` /
IEEE default rounding, applied here to exact rationals). -/
def roundHalfEven (q : ℚ) : ℤ :=
  let f := ⌊q⌋
  let r := q - (f : ℚ)
  if r < 1/2 then f
  else if 1/2 < r then f + 1
  else if f % 2 = 0 then f else f + 1

/-- Python `round(x, 2)` on the exact rational value. -/
def pyRound2 (q : ℚ) : ℚ := (roundHalfEven (q * 100) : ℚ) / 100

/-- Left-pad a string with zeros to length `n`. -/
def padZeros (s : String) (n : Nat) : String :=
  if s.length < n then String.mk (List.replicate (n - s.length) '0') ++ s else s

/-- Python fixed-point formatting `f-string :.df` of an exact rational. -/
def fmtFixed (d : Nat) (q : ℚ) : String :=
  let m : Nat := 10 ^ d
  let n : ℤ := roundHalfEven (q * (m : ℚ))
  let sign := if n < 0 then "-" else ""
  let a : Nat := n.natAbs
  if d = 0 then sign ++ toString a
  else sign ++ toString (a / m) ++ "." ++ padZeros (toString (a % m)) d

/-! ## Python string helpers

Lean core `String.toLower`, `trim`, `take` and `toUpper` walk UTF-8
byte positions and do not reduce in the kernel, so the Python string
operations are modelled on the character list, which also matches
Python per-code-point semantics (slicing counts code points, not
bytes).  Python strips a slightly larger Unicode whitespace set than
`Char.isWhitespace`; the difference is outside the ASCII fragment the
pipeline handles.
-/

/-- Python `s.lower()`. -/
def pyLowerStr (s : String) : String := String.mk (s.data.map Char.toLower)

/-- Python `s.upper()`. -/
def pyUpperStr (s : String) : String := String.mk (s.data.map Char.toUpper)

/-- Python `s.strip()` on a character list. -/
def pyStripChars (cs : List Char) : List Char :=
  ((cs.dropWhile Char.isWhitespace).reverse.dropWhile
    Char.isWhitespace).reverse

/-- Python `s.strip()`. -/
def pyStrip (s : String) : String := String.mk (pyStripChars s.data)

/-- Python `s[:n]`. -/
def pySlice (n : Nat) (s : String) : String := String.mk (s.data.take n)

/-! ## risk_manager.py : CostCalculator -/

/-- `TradeCosts` dataclass.  `breakeven_move` is `none` when the Python
code stores float infinity, i.e. for non-positive order value. -/
structure TradeCosts where
  commission : ℚ
  spread_estimate : ℚ
  total_roundtrip : ℚ
  breakeven_move : Option ℚ
  deriving Repr, DecidableEq

def XETRA_RATE : ℚ := 1/1000
def XETRA_MIN : ℚ := 4
def XETRA_MAX : ℚ := 99
def US_PER_SHARE : ℚ := 1/100
def US_MIN : ℚ := 2
def UK_RATE : ℚ := 1/1000
def UK_MIN : ℚ := 6

/-- `CostCalculator.calculate_stock_cost` (the `currency` argument is
unused in the source). -/
def calculate_stock_cost (exchange : String) (quantity : ℤ) (price : ℚ) :
    TradeCosts :=
  let order_value : ℚ := (quantity : ℚ) * price
  let commission : ℚ :=
    if exchange = "XETRA" ∨ exchange = "IBIS" then
      max XETRA_MIN (min (order_value * XETRA_RATE) XETRA_MAX)
    else if exchange = "NYSE" ∨ exchange = "NASDAQ" ∨ exchange = "ARCA" ∨
        exchange = "SMART" then
      max US_MIN ((quantity : ℚ) * US_PER_SHARE)
    else if exchange = "LSE" ∨ exchange = "LSEETF" then
      max UK_MIN (order_value * UK_RATE)
    else
      max 4 (order_value * (1/1000))
  let spread_estimate : ℚ :=
    if 100000 < order_value then order_value * (2/10000)
    else if 10000 < order_value then order_value * (5/10000)
    else order_value * (1/1000)
  let total_roundtrip := commission * 2 + spread_estimate * 2
  let breakeven_move : Option ℚ :=
    if 0 < order_value then some (total_roundtrip / order_value * 100) else none
  { commission := commission, spread_estimate := spread_estimate,
    total_roundtrip := total_roundtrip, breakeven_move := breakeven_move }

/-- `CostCalculator.is_trade_viable`; a float-infinity breakeven compares
greater than every finite expectation, so the comparison is false. -/
def is_trade_viable (costs : TradeCosts) (expected_return_pct : ℚ)
    (minReward : ℚ) : Bool :=
  match costs.breakeven_move with
  | none => false
  | some b => decide (b * minReward < expected_return_pct)

/-! ## risk_manager.py : RiskManager -/

/-- `PositionSizeResult` dataclass. -/
structure PositionSizeResult where
  shares : ℤ
  position_value : ℚ
  risk_amount : ℚ
  stop_loss_price : ℚ
  take_profit_price : ℚ
  viable : Bool
  reason : String
  deriving Repr, DecidableEq

/-- `RiskManager` constructor state (field `max_risk_per_trade` stores the
`max_risk_per_trade_pct` argument, `max_portfolio_risk` the
`max_portfolio_risk_pct` argument, as in `__init__`). -/
structure RiskManager where
  total_capital : ℚ
  max_position_pct : ℚ := 5/100
  max_risk_per_trade : ℚ := 1/100
  max_portfolio_risk : ℚ := 10/100
  max_correlation : ℚ := 7/10
  deriving Repr, DecidableEq

/-- The interpolated rejection reason of step 6 (fees too high). -/
def feeReason (costs : TradeCosts) (expected_return : ℚ) : String :=
  "Gebühren zu hoch: " ++
    (match costs.breakeven_move with
     | none => "inf"
     | some b => fmtFixed 2 b) ++ "% Breakeven, " ++
    fmtFixed 1 expected_return ++ "% erwartet"

/-- The interpolated success reason of the viable branch. -/
def okReason (adjusted_shares : ℤ) (costs : TradeCosts) : String :=
  "OK - " ++ toString adjusted_shares ++ " Stück, Gebühren: " ++
    fmtFixed 2 costs.commission ++ "€, Breakeven: " ++
    (match costs.breakeven_move with
     | none => "inf"
     | some b => fmtFixed 2 b) ++ "%"

/-- `RiskManager.calculate_position_size`.  Note the Python truthiness
test `volatility * 1.5 if volatility else 0.05`: both `None` and `0.0`
fall back to the default percentage.  The `symbol` argument is unused in
the source body and is omitted here. -/
def calculate_position_size (rm : RiskManager) (entry_price : ℚ)
    (strategy : String) (signal_strength : ℚ) (exchange : String)
    (current_portfolio_risk : ℚ) (volatility : Option ℚ) :
    PositionSizeResult :=
  if rm.max_portfolio_risk ≤ current_portfolio_risk then
    { shares := 0, position_value := 0, risk_amount := 0,
      stop_loss_price := 0, take_profit_price := 0,
      viable := false, reason := "Portfolio-Risiko-Limit erreicht" }
  else
    let sltp : ℚ × ℚ :=
      if strategy = "momentum" then
        let sl := match volatility with
          | some v => if v = 0 then 5/100 else v * (3/2)
          | none => 5/100
        (sl, sl * 3)
      else if strategy = "mean_reversion" then
        let sl := match volatility with
          | some v => if v = 0 then 3/100 else v * 1
          | none => 3/100
        (sl, sl * 2)
      else if strategy = "hedge" then (7/100, 10/100)
      else (4/100, 8/100)
    let stop_loss_pct := sltp.1
    let take_profit_pct := sltp.2
    let stop_loss_price := entry_price * (1 - stop_loss_pct)
    let take_profit_price := entry_price * (1 + take_profit_pct)
    let risk_per_share := entry_price - stop_loss_price
    if risk_per_share ≤ 0 then
      { shares := 0, position_value := 0, risk_amount := 0,
        stop_loss_price := stop_loss_price,
        take_profit_price := take_profit_price,
        viable := false, reason := "Ungültiger Stop-Loss" }
    else
      let max_risk_amount := rm.total_capital * rm.max_risk_per_trade
      let shares_by_risk := pyInt (max_risk_amount / risk_per_share)
      let max_position_value := rm.total_capital * rm.max_position_pct
      let shares_by_capital := pyInt (max_position_value / entry_price)
      let base_shares := min shares_by_risk shares_by_capital
      let adjusted_shares := pyInt ((base_shares : ℚ) * signal_strength)
      if adjusted_shares < 1 then
        { shares := 0, position_value := 0, risk_amount := 0,
          stop_loss_price := stop_loss_price,
          take_profit_price := take_profit_price,
          viable := false, reason := "Position zu klein nach Anpassung" }
      else
        let position_value := (adjusted_shares : ℚ) * entry_price
        let risk_amount := (adjusted_shares : ℚ) * risk_per_share
        let costs := calculate_stock_cost exchange adjusted_shares entry_price
        let expected_return := take_profit_pct * 100
        if ¬ is_trade_viable costs expected_return 2 then
          { shares := 0, position_value := 0, risk_amount := 0,
            stop_loss_price := stop_loss_price,
            take_profit_price := take_profit_price,
            viable := false,
            reason := feeReason costs expected_return }
        else
          { shares := adjusted_shares,
            position_value := position_value,
            risk_amount := risk_amount,
            stop_loss_price := pyRound2 stop_loss_price,
            take_profit_price := pyRound2 take_profit_price,
            viable := true,
            reason := okReason adjusted_shares costs }

/-! ## market_analyzer.py : MarketRegime (shared with bot.py) -/

/-- `MarketRegime` enum. -/
inductive MarketRegime where
  | TRENDING_BULLISH
  | TRENDING_BEARISH
  | RANGE_BOUND
  | HIGH_UNCERTAINTY
  | CRISIS
  deriving Repr, DecidableEq

/-! ## bot.py : AITradingBot._check_exit_conditions -/

/-- The interpolated stop-loss exit reason (`:.1%` formatting). -/
def stopLossReason (pnl : ℚ) : String :=
  "Stop-Loss erreicht (" ++ fmtFixed 1 (pnl * 100) ++ "%)"

/-- The interpolated take-profit exit reason (`:.1%` formatting). -/
def takeProfitReason (pnl : ℚ) : String :=
  "Take-Profit erreicht (" ++ fmtFixed 1 (pnl * 100) ++ "%)"

/-- `AITradingBot._check_exit_conditions`.  The held `position` argument
is unused in the source body; the bot state `self.current_regime` enters
through the `regime` and `recommended_strategy` arguments.  Note the
source comment `else:  # mean_reversion`: every strategy other than
"momentum" takes the −3%/+6% branch. -/
def check_exit_conditions (regime : MarketRegime)
    (recommended_strategy : String) (unrealized_pnl_pct : ℚ) :
    Bool × String :=
  if regime = MarketRegime.CRISIS then (true, "Marktregime: CRISIS")
  else
    let sltp : ℚ × ℚ :=
      if recommended_strategy = "momentum" then (-((5:ℚ)/100), (15:ℚ)/100)
      else (-((3:ℚ)/100), (6:ℚ)/100)
    if unrealized_pnl_pct ≤ sltp.1 then
      (true, stopLossReason unrealized_pnl_pct)
    else if sltp.2 ≤ unrealized_pnl_pct then
      (true, takeProfitReason unrealized_pnl_pct)
    else (false, "")

/-! ## news_aggregator.py : data model -/

/-- `NewsSource` enum. -/
inductive NewsSource where
  | FINNHUB
  | ALPHA_VANTAGE
  | NEWSAPI
  | BENZINGA
  | RSS
  deriving Repr, DecidableEq

/-- `NewsSentiment` enum. -/
inductive NewsSentiment where
  | VERY_BULLISH
  | BULLISH
  | NEUTRAL
  | BEARISH
  | VERY_BEARISH
  deriving Repr, DecidableEq

/-- `NewsArticle` dataclass; `published_at` is a UTC timestamp in
seconds. -/
structure NewsArticle where
  id : String
  headline : String
  summary : String
  source : NewsSource
  url : String
  published_at : ℤ
  symbols : List String := []
  sentiment : Option NewsSentiment := none
  sentiment_score : Option ℚ := none
  relevance_score : Option ℚ := none
  categories : List String := []
  deriving Repr, DecidableEq

/-- `MarketNews` dataclass. -/
structure MarketNews where
  articles : List NewsArticle
  fetch_time : ℤ
  overall_sentiment : ℚ
  trending_symbols : List String
  key_themes : List String
  deriving Repr, DecidableEq

/-! ## news_aggregator.py : NewsAggregator -/

/-- The deduplication key of `_deduplicate`:
`article.headline.lower().strip()[:50]`. -/
def normalized_headline (a : NewsArticle) : String :=
  pySlice 50 (pyStrip (pyLowerStr a.headline))

/-- The first loop of `_deduplicate`: keep the first-seen article per
normalized key, threading the `seen_headlines` set. -/
def dedupPass : List NewsArticle → List String → List NewsArticle
  | [], _ => []
  | a :: rest, seen =>
    if normalized_headline a ∈ seen then dedupPass rest seen
    else a :: dedupPass rest (normalized_headline a :: seen)

/-- The first article of the list carrying the given normalized key. -/
def first_with_key (articles : List NewsArticle) (k : String) :
    Option NewsArticle :=
  articles.find? (fun b => normalized_headline b == k)

/-- `NewsAggregator._deduplicate`: first-seen filter per normalized
headline, then `unique.sort(key=published_at, reverse=True)`.  Python
`list.sort` is stable, and a stable sort is uniquely determined by its
comparison, so the stable `insertionSort` with the weak descending
relation reproduces it exactly. -/
def deduplicate (articles : List NewsArticle) : List NewsArticle :=
  (dedupPass articles []).insertionSort
    (fun x y => y.published_at ≤ x.published_at)

/-- Counting-dict update `counts[k] = counts.get(k, 0) + 1`, keeping
Python dict insertion order. -/
def bump : List (String × Nat) → String → List (String × Nat)
  | [], k => [(k, 1)]
  | (k', n) :: rest, k =>
    if k' = k then (k', n + 1) :: rest else (k', n) :: bump rest k

/-- Build the counting dict for a key stream, in encounter order. -/
def tally (keys : List String) : List (String × Nat) := keys.foldl bump []

/-- `sorted(counts.keys(), key=lambda x: counts[x], reverse=True)`:
stable descending sort of the keys by count (ties keep insertion
order). -/
def rankedKeys (keys : List String) : List String :=
  ((tally keys).insertionSort (fun x y => y.2 ≤ x.2)).map Prod.fst

/-- `NewsAggregator._build_market_news`; `now` models the
`datetime.now()` stamp. -/
def build_market_news (articles : List NewsArticle) (now : ℤ) :
    MarketNews :=
  let sentiment_scores := articles.filterMap (fun a => a.sentiment_score)
  let overall_sentiment : ℚ :=
    if sentiment_scores = [] then 0
    else sentiment_scores.sum / (sentiment_scores.length : ℚ)
  { articles := articles,
    fetch_time := now,
    overall_sentiment := overall_sentiment,
    trending_symbols :=
      (rankedKeys ((articles.map NewsArticle.symbols).flatten)).take 10,
    key_themes :=
      (rankedKeys ((articles.map NewsArticle.categories).flatten)).take 5 }

/-- The `NewsAggregator` mutable state: the single `"market_news"`
cache slot holding `(fetch timestamp, deduplicated articles)`. -/
structure NewsAggregator where
  cache : Option (ℤ × List NewsArticle) := none
  deriving Repr, DecidableEq

/-- `self._cache_ttl = timedelta(minutes=5)`, in seconds. -/
def CACHE_TTL : ℤ := 300

/-- Lines 573–609 of `get_market_news`: gather the fetcher results
(`asyncio.gather(..., return_exceptions=True)`; an `error` entry is a
raised exception and contributes no articles), deduplicate, store the
snapshot in the cache slot and build the `MarketNews`. -/
def fetch_and_cache (now : ℤ)
    (fetches : List (Except String (List NewsArticle))) :
    MarketNews × NewsAggregator × Bool :=
  let all_articles := (fetches.filterMap Except.toOption).flatten
  let unique_articles := deduplicate all_articles
  (build_market_news unique_articles now,
   { cache := some (now, unique_articles) }, true)

/-- `NewsAggregator.get_market_news`.  The registered fetchers are
modelled by the list of their outcomes; the third component records
whether a fetch pass ran (`false` = served from cache). -/
def get_market_news (agg : NewsAggregator) (now : ℤ) (use_cache : Bool)
    (fetches : List (Except String (List NewsArticle))) :
    MarketNews × NewsAggregator × Bool :=
  if use_cache then
    match agg.cache with
    | some (cached_time, cached_data) =>
      if now - cached_time < CACHE_TTL then
        (build_market_news cached_data now, agg, false)
      else fetch_and_cache now fetches
    | none => fetch_and_cache now fetches
  else fetch_and_cache now fetches

/-! ## market_analyzer.py : MarketAnalyzer -/

/-- The value universe of `json.loads`: the JSON data the oracle reply
decodes to. -/
inductive Json where
  | null
  | bool (b : Bool)
  | num (q : ℚ)
  | str (s : String)
  | arr (elems : List Json)
  | obj (fields : List (String × Json))

/-- Python `dict.get(key, default)` on a decoded JSON object
(`json.loads` keeps the last binding of a duplicated key). -/
def dictGet (fields : List (String × Json)) (key : String)
    (default : Json) : Json :=
  match fields.reverse.find? (fun p => p.1 == key) with
  | some p => p.2
  | none => default

/-- Python `.upper()`: only defined on strings, otherwise an
`AttributeError` is raised (regime tokens are ASCII, where `toUpper`
agrees with Python). -/
def pyUpper : Json → Except String String
  | .str s => .ok (pyUpperStr s)
  | _ => .error "AttributeError: upper"

/-- `MarketRegime[name]`: enum lookup by member name, `KeyError` on an
unknown token. -/
def marketRegimeOfName : String → Except String MarketRegime
  | "TRENDING_BULLISH" => .ok .TRENDING_BULLISH
  | "TRENDING_BEARISH" => .ok .TRENDING_BEARISH
  | "RANGE_BOUND" => .ok .RANGE_BOUND
  | "HIGH_UNCERTAINTY" => .ok .HIGH_UNCERTAINTY
  | "CRISIS" => .ok .CRISIS
  | _ => .error "KeyError: regime"

/-- Digit-string value. -/
def digitsVal (cs : List Char) : Nat :=
  cs.foldl (fun n c => 10 * n + (c.toNat - 48)) 0

/-- Python `float(s)` on a string: optional sign, decimal digits with
an optional fractional part.  The exponent / `inf` / `nan` literal
forms accepted by Python are outside the fragment exercised by the
oracle contract and are not modelled. -/
def parseDecimalString (s : String) : Option ℚ :=
  let t := pyStripChars s.data
  let sgn : ℚ × List Char :=
    match t with
    | '+' :: r => (1, r)
    | '-' :: r => (-1, r)
    | r => (1, r)
  match sgn.2.splitOn '.' with
  | [ip] =>
    if ip ≠ [] ∧ ip.all Char.isDigit then some (sgn.1 * digitsVal ip)
    else none
  | [ip, fp] =>
    if (ip ≠ [] ∨ fp ≠ []) ∧ ip.all Char.isDigit ∧ fp.all Char.isDigit then
      some (sgn.1 *
        ((digitsVal ip : ℚ) + (digitsVal fp : ℚ) / ((10 : ℚ) ^ fp.length)))
    else none
  | _ => none

/-- Python `float(x)` on a decoded JSON value. -/
def pyFloat : Json → Except String ℚ
  | .num q => .ok q
  | .bool b => .ok (if b then 1 else 0)
  | .str s =>
    match parseDecimalString s with
    | some q => .ok q
    | none => .error "ValueError: could not convert string to float"
  | _ => .error "TypeError: float() argument"

/-- `SectorRecommendation` dataclass.  The Python dataclass performs no
runtime type check, so the raw decoded values are stored. -/
structure SectorRecommendation where
  sector : Json
  stance : Json
  reason : Json

/-- The `for sr in data.get(...)` loop over sector recommendations.
Iterating a non-empty string or dict yields elements without `.get`
(`AttributeError`); non-iterables raise `TypeError`. -/
def parseSectorRecs : Json → Except String (List SectorRecommendation)
  | .arr xs => xs.mapM (fun sr =>
      match sr with
      | .obj fields => Except.ok
          { sector := dictGet fields "sector" (.str "unknown"),
            stance := dictGet fields "stance" (.str "neutral"),
            reason := dictGet fields "reason" (.str "") }
      | _ => .error "AttributeError: get")
  | .str s => if s.data.isEmpty then .ok [] else .error "AttributeError: get"
  | .obj fields =>
    if fields.isEmpty then .ok [] else .error "AttributeError: get"
  | _ => .error "TypeError: not iterable"

/-- `RegimeAnalysis` dataclass.  Only `regime`, `confidence` and
`position_size_modifier` pass through a conversion in
`_parse_response`; every other payload field is stored as the raw
decoded value without validation, so those fields keep type `Json`. -/
structure RegimeAnalysis where
  regime : MarketRegime
  confidence : ℚ
  reasoning : Json
  recommended_strategy : Json
  position_size_modifier : ℚ
  sector_recommendations : List SectorRecommendation
  risk_level : Json
  key_risks : Json
  outlook_horizon : Json
  key_events_ahead : Json
  analysis_time : ℤ
  news_count : Nat

/-- The body of the `try` block of `MarketAnalyzer._parse_response`
(lines 258–292).  `decoded` is the outcome of the code-fence stripping
plus `json.loads` prefix: `error` when `json.loads` raised.  The
evaluation order of the fallible steps follows the source. -/
def parseRegimeBody (decoded : Except String Json) (news_count : Nat)
    (now : ℤ) : Except String RegimeAnalysis := do
  let j ← decoded
  let fields ← match j with
    | .obj fs => Except.ok fs
    | _ => Except.error "AttributeError: get"
  let regimeStr ← pyUpper (dictGet fields "regime" (.str "RANGE_BOUND"))
  let regime ← marketRegimeOfName regimeStr
  let sector_recs ← parseSectorRecs
    (dictGet fields "sector_recommendations" (.arr []))
  let confidence ← pyFloat (dictGet fields "confidence" (.num (1/2)))
  let modifier ← pyFloat
    (dictGet fields "position_size_modifier" (.num (1/2)))
  Except.ok
    { regime := regime,
      confidence := confidence,
      reasoning := dictGet fields "reasoning" (.str ""),
      recommended_strategy :=
        dictGet fields "recommended_strategy" (.str "mean_reversion"),
      position_size_modifier := modifier,
      sector_recommendations := sector_recs,
      risk_level := dictGet fields "risk_level" (.str "medium"),
      key_risks := dictGet fields "key_risks" (.arr []),
      outlook_horizon := dictGet fields "outlook_horizon" (.str "1-2 Wochen"),
      key_events_ahead := dictGet fields "key_events_ahead" (.arr []),
      analysis_time := now,
      news_count := news_count }

/-- The `except` branch of `_parse_response`: the deterministic
conservative fallback, with `reasoning = f-string "Analyse-Fehler: e"`. -/
def fallbackAnalysis (e : String) (news_count : Nat) (now : ℤ) :
    RegimeAnalysis :=
  { regime := .HIGH_UNCERTAINTY,
    confidence := 3/10,
    reasoning := .str ("Analyse-Fehler: " ++ e),
    recommended_strategy := .str "cash",
    position_size_modifier := 1/4,
    sector_recommendations := [],
    risk_level := .str "high",
    key_risks := .arr [.str "Analyse konnte nicht durchgeführt werden"],
    outlook_horizon := .str "unbekannt",
    key_events_ahead := .arr [],
    analysis_time := now,
    news_count := news_count }

/-- `MarketAnalyzer._parse_response`: the try/except wrapper.  Total —
the classification path never raises to the caller. -/
def parse_response (decoded : Except String Json) (news_count : Nat)
    (now : ℤ) : RegimeAnalysis :=
  match parseRegimeBody decoded news_count now with
  | .ok r => r
  | .error e => fallbackAnalysis e news_count now

/-! ## Concrete inputs used by counterexamples and witnesses -/

/-- An article whose headline collides with `cexArticleNew` but which
was published earlier. -/
def cexArticleOld : NewsArticle :=
  { id := "a1", headline := "Fed Raises Rates", summary := "old body",
    source := .FINNHUB, url := "u1", published_at := 100 }

/-- The later-published duplicate of `cexArticleOld`. -/
def cexArticleNew : NewsArticle :=
  { id := "a2", headline := "Fed raises rates", summary := "new body",
    source := .NEWSAPI, url := "u2", published_at := 200 }

/-- A well-formed oracle reply whose `confidence` field is out of
range. -/
def cexOracleJson : Json :=
  .obj [("regime", .str "CRISIS"), ("confidence", .num 5)]

/-! ## Helper lemmas -/

/-- Membership in the first-seen filter: an article survives iff its
key is not among the already-seen keys and it is the first article of
the list carrying its key. -/
theorem mem_dedupPass (articles : List NewsArticle) (seen : List String)
    (a : NewsArticle) :
    a ∈ dedupPass articles seen ↔
      normalized_headline a ∉ seen ∧
        articles.find?
          (fun b => normalized_headline b == normalized_headline a) =
          some a := by
  induction articles generalizing seen with
  | nil => simp [dedupPass]
  | cons x rest ih =>
    simp only [dedupPass]
    by_cases hx : normalized_headline x ∈ seen
    · rw [if_pos hx, ih]
      by_cases hk : normalized_headline x = normalized_headline a
      · have ha : normalized_headline a ∈ seen := hk ▸ hx
        simp [ha]
      · rw [List.find?_cons_of_neg _ (by simpa using hk)]
    · rw [if_neg hx]
      by_cases hax : a = x
      · subst hax
        simp [List.find?_cons_of_pos, hx]
      · rw [List.mem_cons]
        simp only [hax, false_or]
        rw [ih]
        by_cases hk : normalized_headline x = normalized_headline a
        · rw [List.find?_cons_of_pos _ (by simpa using hk)]
          have hmem_x : normalized_headline a ∈ normalized_headline x :: seen := by
            rw [← hk]
            exact List.mem_cons_self _ _
          constructor
          · rintro ⟨hmem, -⟩
            exact absurd hmem_x hmem
          · rintro ⟨-, hfind⟩
            exact absurd (Option.some.inj hfind).symm hax
        · rw [List.find?_cons_of_neg _ (by simpa using hk)]
          constructor
          · rintro ⟨hmem, hfind⟩
            exact ⟨fun h => hmem (List.mem_cons_of_mem _ h), hfind⟩
          · rintro ⟨hmem, hfind⟩
            refine ⟨fun h => ?_, hfind⟩
            rcases List.mem_cons.mp h with h | h
            · exact hk h.symm
            · exact hmem h

/-- The `articles` field of a built `MarketNews` is the input list. -/
theorem build_market_news_articles (arts : List NewsArticle) (now : ℤ) :
    (build_market_news arts now).articles = arts := rfl

/-- The articles of a `get_market_news` result are exactly the article
list sitting in the resulting cache slot. -/
theorem get_market_news_articles_eq_cache (agg : NewsAggregator)
    (now : ℤ) (use_cache : Bool)
    (fetches : List (Except String (List NewsArticle)))
    (t : ℤ) (arts : List NewsArticle)
    (h : (get_market_news agg now use_cache fetches).2.1.cache =
      some (t, arts)) :
    (get_market_news agg now use_cache fetches).1.articles = arts := by
  cases use_cache <;> rcases hc : agg.cache with _ | ⟨ct, cd⟩ <;>
    simp only [get_market_news, fetch_and_cache, hc, Bool.false_eq_true,
      if_false, if_true, ite_true, ite_false] at h ⊢
  all_goals try split_ifs at h ⊢
  all_goals simp only [hc, Option.some.injEq, Prod.mk.injEq] at h
  all_goals rw [← h.2]
  all_goals exact build_market_news_articles _ _

/-! ## Claims about the Risk & Sizing Engine -/

/-- Claim C1: for capital=50000, entry_price=150, strategy="momentum",
signal_strength=0.8, exchange="NASDAQ", current_portfolio_risk=0.02,
volatility absent and the default risk limits,
`calculate_position_size` returns stop_loss_price=142.50,
take_profit_price=172.50, a positive share count and viable=true. -/
theorem C1_default_momentum_scenario :
    (calculate_position_size { total_capital := 50000 } 150 "momentum"
        (8/10) "NASDAQ" (2/100) none).stop_loss_price = 285/2 ∧
    (calculate_position_size { total_capital := 50000 } 150 "momentum"
        (8/10) "NASDAQ" (2/100) none).take_profit_price = 345/2 ∧
    0 < (calculate_position_size { total_capital := 50000 } 150 "momentum"
        (8/10) "NASDAQ" (2/100) none).shares ∧
    (calculate_position_size { total_capital := 50000 } 150 "momentum"
        (8/10) "NASDAQ" (2/100) none).viable = true := by
  refine ⟨?_, ?_, ?_, ?_⟩ <;>
    · simp [calculate_position_size, calculate_stock_cost, is_trade_viable,
        pyInt, pyRound2, roundHalfEven, US_MIN, US_PER_SHARE]
      norm_num

/-- Claim C8: whenever `current_portfolio_risk ≥ max_portfolio_risk_pct`
(the boundary of exact equality included), `calculate_position_size`
rejects with the portfolio-risk-limit reason, which is distinct from the
too-small rejection reason. -/
theorem C8_portfolio_risk_limit_inclusive (rm : RiskManager)
    (entry_price : ℚ) (strategy : String) (signal_strength : ℚ)
    (exchange : String) (current_portfolio_risk : ℚ) (volatility : Option ℚ)
    (h : rm.max_portfolio_risk ≤ current_portfolio_risk) :
    (calculate_position_size rm entry_price strategy signal_strength
        exchange current_portfolio_risk volatility).viable = false ∧
    (calculate_position_size rm entry_price strategy signal_strength
        exchange current_portfolio_risk volatility).reason =
      "Portfolio-Risiko-Limit erreicht" ∧
    (calculate_position_size rm entry_price strategy signal_strength
        exchange current_portfolio_risk volatility).reason ≠
      "Position zu klein nach Anpassung" := by
  rw [calculate_position_size.eq_def, if_pos h]
  refine ⟨rfl, rfl, by decide⟩

/-- Witness for C8 at the exact boundary
`current_portfolio_risk = max_portfolio_risk_pct = 0.10`. -/
theorem C8_portfolio_risk_limit_inclusive_witness :
    (calculate_position_size { total_capital := 50000 } 150 "momentum"
        (8/10) "NASDAQ" (10/100) none).viable = false ∧
    (calculate_position_size { total_capital := 50000 } 150 "momentum"
        (8/10) "NASDAQ" (10/100) none).reason =
      "Portfolio-Risiko-Limit erreicht" ∧
    (calculate_position_size { total_capital := 50000 } 150 "momentum"
        (8/10) "NASDAQ" (10/100) none).reason ≠
      "Position zu klein nach Anpassung" :=
  C8_portfolio_risk_limit_inclusive { total_capital := 50000 } 150 "momentum"
    (8/10) "NASDAQ" (10/100) none (le_refl ((10:ℚ)/100))

/-- Claim C9: every `PositionSizeResult` satisfies the invariant that a
non-viable result has zero shares, value and risk, and a viable result
has at least one share. -/
theorem C9_viability_shares_invariant (rm : RiskManager)
    (entry_price : ℚ) (strategy : String) (signal_strength : ℚ)
    (exchange : String) (current_portfolio_risk : ℚ)
    (volatility : Option ℚ) :
    ((calculate_position_size rm entry_price strategy signal_strength
        exchange current_portfolio_risk volatility).viable = false →
      (calculate_position_size rm entry_price strategy signal_strength
        exchange current_portfolio_risk volatility).shares = 0 ∧
      (calculate_position_size rm entry_price strategy signal_strength
        exchange current_portfolio_risk volatility).position_value = 0 ∧
      (calculate_position_size rm entry_price strategy signal_strength
        exchange current_portfolio_risk volatility).risk_amount = 0) ∧
    ((calculate_position_size rm entry_price strategy signal_strength
        exchange current_portfolio_risk volatility).viable = true →
      1 ≤ (calculate_position_size rm entry_price strategy signal_strength
        exchange current_portfolio_risk volatility).shares) := by
  simp only [calculate_position_size]
  split_ifs <;>
    first
      | exact ⟨fun _ => ⟨rfl, rfl, rfl⟩, fun hv => by simp at hv⟩
      | exact ⟨fun hv => by simp at hv, fun _ => by dsimp only at *; omega⟩

/-- Witness for C9 on both sides: a rejected call has zero shares, and
the viable C1 call has at least one share. -/
theorem C9_viability_shares_invariant_witness :
    ((calculate_position_size { total_capital := 50000 } 150 "momentum"
        (8/10) "NASDAQ" (10/100) none).shares = 0 ∧
     (calculate_position_size { total_capital := 50000 } 150 "momentum"
        (8/10) "NASDAQ" (10/100) none).position_value = 0 ∧
     (calculate_position_size { total_capital := 50000 } 150 "momentum"
        (8/10) "NASDAQ" (10/100) none).risk_amount = 0) ∧
    1 ≤ (calculate_position_size { total_capital := 50000 } 150 "momentum"
        (8/10) "NASDAQ" (2/100) none).shares :=
  ⟨(C9_viability_shares_invariant { total_capital := 50000 } 150 "momentum"
      (8/10) "NASDAQ" (10/100) none).1
    (by rw [calculate_position_size.eq_def, if_pos (le_refl ((10:ℚ)/100))]),
   (C9_viability_shares_invariant { total_capital := 50000 } 150 "momentum"
      (8/10) "NASDAQ" (2/100) none).2
    (by simp [calculate_position_size, calculate_stock_cost, is_trade_viable,
          pyInt, US_MIN, US_PER_SHARE]
        norm_num)⟩

/-! ## Claims about the exit check -/

/-- Counterexample to claim C5: with regime RANGE_BOUND, recommended
strategy "hedge" and unrealized P&L of −4%, the exit check signals an
exit although the sizing engine derives a 7%/10% stop/target for
"hedge" (stop 93, target 110 at entry 100), so neither claimed
threshold is breached. -/
theorem C5_exit_thresholds_counterexample :
    (check_exit_conditions MarketRegime.RANGE_BOUND "hedge"
        (-((4:ℚ)/100))).1 = true ∧
    (calculate_position_size { total_capital := 50000 } 100 "hedge" 1
        "NASDAQ" 0 none).stop_loss_price = 93 ∧
    (calculate_position_size { total_capital := 50000 } 100 "hedge" 1
        "NASDAQ" 0 none).take_profit_price = 110 ∧
    ¬ ((-((4:ℚ)/100)) ≤ -((7:ℚ)/100) ∨ (10:ℚ)/100 ≤ -((4:ℚ)/100)) := by
  refine ⟨?_, ?_, ?_, ?_⟩
  · simp [check_exit_conditions]
    norm_num
  · simp [calculate_position_size, calculate_stock_cost, is_trade_viable,
      pyInt, pyRound2, roundHalfEven, US_MIN, US_PER_SHARE]
    norm_num
  · simp [calculate_position_size, calculate_stock_cost, is_trade_viable,
      pyInt, pyRound2, roundHalfEven, US_MIN, US_PER_SHARE]
    norm_num
  · norm_num

/-- Amended claim C5: per-cycle exit is signalled iff the regime is
CRISIS (overriding everything), or the unrealized P&L% breaches
−5%/+15% for strategy "momentum" and −3%/+6% for every other strategy;
the 7%/10% (hedge) and 4%/8% (default) thresholds of the sizing step
are not used by the exit check. -/
theorem C5_exit_thresholds_amended (regime : MarketRegime)
    (recommended_strategy : String) (pnl : ℚ) :
    (check_exit_conditions regime recommended_strategy pnl).1 =
      (decide (regime = MarketRegime.CRISIS) ||
        (if recommended_strategy = "momentum" then
          decide (pnl ≤ -((5:ℚ)/100) ∨ (15:ℚ)/100 ≤ pnl)
        else
          decide (pnl ≤ -((3:ℚ)/100) ∨ (6:ℚ)/100 ≤ pnl))) := by
  by_cases hr : regime = MarketRegime.CRISIS
  · simp [check_exit_conditions, hr]
  · by_cases hs : recommended_strategy = "momentum"
    · by_cases h1 : pnl ≤ -((5:ℚ)/100)
      · simp [check_exit_conditions, hr, hs, h1]
      · by_cases h2 : (15:ℚ)/100 ≤ pnl
        · simp [check_exit_conditions, hr, hs, h1, h2]
        · simp [check_exit_conditions, hr, hs, h1, h2]
    · by_cases h1 : pnl ≤ -((3:ℚ)/100)
      · simp [check_exit_conditions, hr, hs, h1]
      · by_cases h2 : (6:ℚ)/100 ≤ pnl
        · simp [check_exit_conditions, hr, hs, h1, h2]
        · simp [check_exit_conditions, hr, hs, h1, h2]

/-- A call on a state whose cache entry is fresh, with `use_cache=true`,
is served from the cache: same snapshot, unchanged state, no fetch. -/
theorem get_market_news_cache_hit (s : NewsAggregator) (t : ℤ)
    (arts : List NewsArticle) (now2 : ℤ)
    (fetches2 : List (Except String (List NewsArticle)))
    (hs : s.cache = some (t, arts)) (htt : now2 - t < CACHE_TTL) :
    get_market_news s now2 true fetches2 =
      (build_market_news arts now2, s, false) := by
  simp [get_market_news, hs, htt]

/-- The state produced by a call that fetched holds exactly the
just-deduplicated snapshot stamped with the call time. -/
theorem get_market_news_fetch_state (agg : NewsAggregator) (now : ℤ)
    (use_cache : Bool)
    (fetches : List (Except String (List NewsArticle)))
    (h : (get_market_news agg now use_cache fetches).2.2 = true) :
    (get_market_news agg now use_cache fetches).2.1 =
      { cache := some (now,
          deduplicate ((fetches.filterMap Except.toOption).flatten)) } := by
  cases use_cache
  · rfl
  · rcases hc : agg.cache with _ | ⟨ct, cd⟩
    · simp [get_market_news, fetch_and_cache, hc]
    · by_cases ht : now - ct < CACHE_TTL
      · exfalso
        simp [get_market_news, hc, ht] at h
      · simp [get_market_news, fetch_and_cache, hc, ht]

/-! ## Claims about the News Fusion Engine -/

set_option maxRecDepth 10000 in
/-- Counterexample to claim C2: two articles share the normalized
headline key, the later-published one arrives second, and the
deduplicated output retains the EARLIER one (the first in input
order), not the one with the latest `published_at`. -/
theorem C2_latest_retained_counterexample :
    deduplicate [cexArticleOld, cexArticleNew] = [cexArticleOld] ∧
    normalized_headline cexArticleOld = normalized_headline cexArticleNew ∧
    cexArticleOld.published_at < cexArticleNew.published_at := by decide

/-- Amended claim C2: among articles sharing a normalized-headline key,
the article retained by `_deduplicate` is the FIRST one in input
(fetch) order — the `seen_headlines` filter runs before the sort by
publish time — an article survives deduplication iff it is the first
article of the input carrying its key. -/
theorem C2_first_seen_retained_amended (articles : List NewsArticle)
    (a : NewsArticle) :
    a ∈ deduplicate articles ↔
      first_with_key articles (normalized_headline a) = some a := by
  unfold deduplicate first_with_key
  rw [List.mem_insertionSort]
  simpa using mem_dedupPass articles [] a

/-- Claim C4: a fetching pass returns the union (concatenation, then
deduplication) of the successful fetchers; when every fetcher fails the
result has an empty article list and overall sentiment 0.0, and no
error is raised (the function is total). -/
theorem C4_all_fetchers_fail (agg : NewsAggregator) (now : ℤ)
    (fetches : List (Except String (List NewsArticle))) :
    (get_market_news agg now false fetches).1.articles =
      deduplicate ((fetches.filterMap Except.toOption).flatten) ∧
    ((∀ r ∈ fetches, r.toOption = (none : Option (List NewsArticle))) →
      (get_market_news agg now false fetches).1.articles = [] ∧
      (get_market_news agg now false fetches).1.overall_sentiment = 0) := by
  constructor
  · exact build_market_news_articles _ _
  · intro hfail
    have hnil : fetches.filterMap Except.toOption = [] :=
      List.filterMap_eq_nil_iff.mpr hfail
    have hfst : (get_market_news agg now false fetches).1 =
        build_market_news
          (deduplicate ((fetches.filterMap Except.toOption).flatten)) now :=
      rfl
    constructor
    · rw [hfst, hnil]
      rfl
    · rw [hfst, hnil]
      rfl

/-- Witness for C4: two failing fetchers, empty fused result. -/
theorem C4_all_fetchers_fail_witness :
    (get_market_news {} 0 false
        [Except.error "timeout", Except.error "HTTP 500"]).1.articles = [] ∧
    (get_market_news {} 0 false
        [Except.error "timeout", Except.error "HTTP 500"]).1.overall_sentiment
      = 0 :=
  (C4_all_fetchers_fail {} 0
      [Except.error "timeout", Except.error "HTTP 500"]).2
    (by simp [Except.toOption])

/-- Claim C7: if the first call leaves a cache entry that is still
fresh at the time of the second call, the second call with
`use_cache=true` returns the same article set, does not fetch, and
leaves the state untouched. -/
theorem C7_cache_hit_within_ttl (agg : NewsAggregator) (now1 : ℤ)
    (uc1 : Bool)
    (fetches1 fetches2 : List (Except String (List NewsArticle)))
    (now2 t : ℤ) (arts : List NewsArticle)
    (hc : (get_market_news agg now1 uc1 fetches1).2.1.cache =
      some (t, arts))
    (htt : now2 - t < CACHE_TTL) :
    (get_market_news (get_market_news agg now1 uc1 fetches1).2.1 now2 true
        fetches2).1.articles =
      (get_market_news agg now1 uc1 fetches1).1.articles ∧
    (get_market_news (get_market_news agg now1 uc1 fetches1).2.1 now2 true
        fetches2).2.2 = false ∧
    (get_market_news (get_market_news agg now1 uc1 fetches1).2.1 now2 true
        fetches2).2.1 = (get_market_news agg now1 uc1 fetches1).2.1 := by
  have h1 : (get_market_news agg now1 uc1 fetches1).1.articles = arts :=
    get_market_news_articles_eq_cache agg now1 uc1 fetches1 t arts hc
  have h2 := get_market_news_cache_hit
    (get_market_news agg now1 uc1 fetches1).2.1 t arts now2 fetches2 hc htt
  rw [h1, h2]
  exact ⟨build_market_news_articles _ _, rfl, rfl⟩

/-- Witness for C7: a cold-cache fetching call at t=0 followed by a
cached call at t=60. -/
theorem C7_cache_hit_within_ttl_witness :
    (get_market_news
        (get_market_news {} 0 true [Except.ok [cexArticleOld]]).2.1 60 true
        []).1.articles =
      (get_market_news {} 0 true [Except.ok [cexArticleOld]]).1.articles ∧
    (get_market_news
        (get_market_news {} 0 true [Except.ok [cexArticleOld]]).2.1 60 true
        []).2.2 = false ∧
    (get_market_news
        (get_market_news {} 0 true [Except.ok [cexArticleOld]]).2.1 60 true
        []).2.1 = (get_market_news {} 0 true [Except.ok [cexArticleOld]]).2.1 :=
  C7_cache_hit_within_ttl {} 0 true [Except.ok [cexArticleOld]] [] 60 0
    [cexArticleOld] (by decide) (by decide)

/-- Claim C10: a call with `use_cache=false` always fetches, and every
call that fetched overwrites the cache slot with the just-fetched
deduplicated list stamped with the call time; a subsequent
`use_cache=true` call within the TTL observes that newer snapshot
without fetching. -/
theorem C10_fetch_overwrites_cache (agg : NewsAggregator) (now : ℤ)
    (use_cache : Bool)
    (fetches : List (Except String (List NewsArticle))) :
    (use_cache = false →
      (get_market_news agg now use_cache fetches).2.2 = true) ∧
    ((get_market_news agg now use_cache fetches).2.2 = true →
      (get_market_news agg now use_cache fetches).2.1.cache =
        some (now,
          deduplicate ((fetches.filterMap Except.toOption).flatten)) ∧
      ∀ (now2 : ℤ) (fetches2 : List (Except String (List NewsArticle))),
        now2 - now < CACHE_TTL →
        (get_market_news (get_market_news agg now use_cache fetches).2.1
            now2 true fetches2).1.articles =
          deduplicate ((fetches.filterMap Except.toOption).flatten) ∧
        (get_market_news (get_market_news agg now use_cache fetches).2.1
            now2 true fetches2).2.2 = false) := by
  constructor
  · rintro rfl
    rfl
  · intro hf
    have hst := get_market_news_fetch_state agg now use_cache fetches hf
    refine ⟨by rw [hst], ?_⟩
    intro now2 fetches2 htt
    have hhit := get_market_news_cache_hit
      (get_market_news agg now use_cache fetches).2.1 now
      (deduplicate ((fetches.filterMap Except.toOption).flatten)) now2
      fetches2 (by rw [hst]) htt
    rw [hhit]
    exact ⟨build_market_news_articles _ _, rfl⟩

/-- Witness for C10: a `use_cache=false` call on a warm cache replaces
the old snapshot; a later cached read within the TTL sees the new
one. -/
theorem C10_fetch_overwrites_cache_witness :
    (get_market_news { cache := some (0, [cexArticleOld]) } 400 false
        [Except.ok [cexArticleNew]]).2.2 = true ∧
    (get_market_news { cache := some (0, [cexArticleOld]) } 400 false
        [Except.ok [cexArticleNew]]).2.1.cache =
      some (400, deduplicate
        (([Except.ok [cexArticleNew]].filterMap
            (Except.toOption (ε := String))).flatten)) ∧
    (get_market_news
        (get_market_news { cache := some (0, [cexArticleOld]) } 400 false
          [Except.ok [cexArticleNew]]).2.1 500 true []).1.articles =
      deduplicate
        (([Except.ok [cexArticleNew]].filterMap
            (Except.toOption (ε := String))).flatten) :=
  ⟨(C10_fetch_overwrites_cache { cache := some (0, [cexArticleOld]) } 400
      false [Except.ok [cexArticleNew]]).1 rfl,
   ((C10_fetch_overwrites_cache { cache := some (0, [cexArticleOld]) } 400
      false [Except.ok [cexArticleNew]]).2
     ((C10_fetch_overwrites_cache { cache := some (0, [cexArticleOld]) } 400
        false [Except.ok [cexArticleNew]]).1 rfl)).1,
   (((C10_fetch_overwrites_cache { cache := some (0, [cexArticleOld]) } 400
      false [Except.ok [cexArticleNew]]).2
     ((C10_fetch_overwrites_cache { cache := some (0, [cexArticleOld]) } 400
        false [Except.ok [cexArticleNew]]).1 rfl)).2 500 [] (by decide)).1⟩

/-! ## Claims about the Regime Classification Adapter -/

/-- Claim C3: whenever the parse/validation body fails — `json.loads`
raised, the decoded value is not an object, the regime token is
unknown, or a numeric field cannot be coerced — `_parse_response`
returns exactly the conservative fallback (it is total, so it never
raises to the caller): regime HIGH_UNCERTAINTY, confidence 0.3,
strategy "cash", modifier 0.25, risk level "high" and the single
synthetic key-risk entry. -/
theorem C3_parse_failure_fallback (decoded : Except String Json)
    (news_count : Nat) (now : ℤ) (e : String)
    (h : parseRegimeBody decoded news_count now = .error e) :
    parse_response decoded news_count now =
      fallbackAnalysis e news_count now ∧
    (parse_response decoded news_count now).regime =
      MarketRegime.HIGH_UNCERTAINTY ∧
    (parse_response decoded news_count now).confidence = 3/10 ∧
    (parse_response decoded news_count now).recommended_strategy =
      Json.str "cash" ∧
    (parse_response decoded news_count now).position_size_modifier = 1/4 ∧
    (parse_response decoded news_count now).risk_level = Json.str "high" ∧
    (parse_response decoded news_count now).key_risks =
      Json.arr [Json.str "Analyse konnte nicht durchgeführt werden"] := by
  have hp : parse_response decoded news_count now =
      fallbackAnalysis e news_count now := by
    unfold parse_response
    rw [h]
  rw [hp]
  exact ⟨rfl, rfl, rfl, rfl, rfl, rfl, rfl⟩

/-- Witness for C3 at a concrete `json.loads` failure. -/
theorem C3_parse_failure_fallback_witness :
    parse_response (.error "Expecting value: line 1 column 1 (char 0)") 7 9 =
      fallbackAnalysis "Expecting value: line 1 column 1 (char 0)" 7 9 ∧
    (parse_response (.error "Expecting value: line 1 column 1 (char 0)") 7
        9).regime = MarketRegime.HIGH_UNCERTAINTY ∧
    (parse_response (.error "Expecting value: line 1 column 1 (char 0)") 7
        9).confidence = 3/10 ∧
    (parse_response (.error "Expecting value: line 1 column 1 (char 0)") 7
        9).recommended_strategy = Json.str "cash" ∧
    (parse_response (.error "Expecting value: line 1 column 1 (char 0)") 7
        9).position_size_modifier = 1/4 ∧
    (parse_response (.error "Expecting value: line 1 column 1 (char 0)") 7
        9).risk_level = Json.str "high" ∧
    (parse_response (.error "Expecting value: line 1 column 1 (char 0)") 7
        9).key_risks =
      Json.arr [Json.str "Analyse konnte nicht durchgeführt werden"] :=
  C3_parse_failure_fallback
    (.error "Expecting value: line 1 column 1 (char 0)") 7 9
    "Expecting value: line 1 column 1 (char 0)" rfl

/-- Counterexample to claim C6: a well-formed oracle reply with
`confidence = 5` parses successfully and the resulting RegimeAnalysis
carries confidence 5 ∉ [0,1] — the successful-parse path performs no
range validation. -/
theorem C6_confidence_range_counterexample :
    (parse_response (Except.ok cexOracleJson) 0 0).confidence = 5 ∧
    ¬ ((parse_response (Except.ok cexOracleJson) 0 0).confidence ≤ 1) := by
  have h : (parse_response (Except.ok cexOracleJson) 0 0).confidence = 5 :=
    rfl
  refine ⟨h, ?_⟩
  rw [h]
  norm_num

/-- Amended claim C6: the fallback path always yields
confidence = 0.3 ∈ [0,1] and position_size_modifier = 0.25 ∈ [0,1];
on a successful parse the two numeric fields are taken verbatim from
the reply without clamping, so out-of-range oracle values propagate
(see the counterexample). -/
theorem C6_range_invariant_amended (decoded : Except String Json)
    (news_count : Nat) (now : ℤ) (e : String)
    (h : parseRegimeBody decoded news_count now = .error e) :
    0 ≤ (parse_response decoded news_count now).confidence ∧
    (parse_response decoded news_count now).confidence ≤ 1 ∧
    0 ≤ (parse_response decoded news_count now).position_size_modifier ∧
    (parse_response decoded news_count now).position_size_modifier ≤ 1 := by
  have hp : parse_response decoded news_count now =
      fallbackAnalysis e news_count now := by
    unfold parse_response
    rw [h]
  rw [hp]
  norm_num [fallbackAnalysis]

/-- Witness for C6 (amended) at a concrete parse failure. -/
theorem C6_range_invariant_amended_witness :
    0 ≤ (parse_response (.error "Unterminated string") 3 4).confidence ∧
    (parse_response (.error "Unterminated string") 3 4).confidence ≤ 1 ∧
    0 ≤ (parse_response
        (.error "Unterminated string") 3 4).position_size_modifier ∧
    (parse_response (.error "Unterminated string") 3 4).position_size_modifier
      ≤ 1 :=
  C6_range_invariant_amended (.error "Unterminated string") 3 4
    "Unterminated string" rfl
